import Mathlib

/-!
Shallow embedding of the cheque reconciliation engine of the
check_tally_agent repository (app/services/reconciliation.py,
app/services/tally.py, app/schemas/cheque.py, app/models/tally_results.py).

Modelling conventions, stated once:
* Python floats are modelled as rationals (ℚ); the amount literals the code
  compares (0.01, record amounts) are exact at these magnitudes.
* datetime.now().date() is modelled by threading an explicit `today : Date`
  parameter through every function that calls it.
* The SQLAlchemy model columns are all nullable, so record fields are
  `Option`-typed; Python exceptions (AttributeError on None.strip(),
  TypeError on None arithmetic, pydantic ValidationError on a None value for
  a required field) are modelled with `Except PyError`.
* json.dumps of the pydantic dicts is injective on these values, so the
  stored Text columns are modelled as the structured values themselves.
* Python sets of strings are modelled as duplicate-free lists in insertion
  order; only membership and cardinality of these sets are ever asserted,
  since CPython set iteration order is not part of the code's behaviour.
-/

deriving instance DecidableEq for Except

namespace CheckTally

/-- Proleptic Gregorian calendar date, as Python's datetime.date. -/
structure Date where
  year : Nat
  month : Nat
  day : Nat
deriving DecidableEq, Repr

/-- Gregorian leap-year test, as datetime's calendar. -/
def isLeap (y : Nat) : Bool :=
  y % 4 == 0 && (y % 100 != 0 || y % 400 == 0)

/-- Number of days in a month of a given year. -/
def daysInMonth (y m : Nat) : Nat :=
  if m == 2 then (if isLeap y then 29 else 28)
  else if m == 4 || m == 6 || m == 9 || m == 11 then 30
  else 31

/-- Validity check performed by the datetime.date constructor. -/
def validDate (y m d : Nat) : Bool :=
  1 ≤ y && y ≤ 9999 && 1 ≤ m && m ≤ 12 && 1 ≤ d && d ≤ daysInMonth y m

/-- Days in all years strictly before year y (Python date internals). -/
def daysBeforeYear (y : Nat) : Nat :=
  365 * (y - 1) + (y - 1) / 4 + (y - 1) / 400 - (y - 1) / 100

/-- Days in all months of year y strictly before month m. -/
def daysBeforeMonth (y m : Nat) : Nat :=
  (List.range (m - 1)).foldl (fun acc i => acc + daysInMonth y (i + 1)) 0

/-- Python date.toordinal: day count with 0001-01-01 mapped to 1. -/
def Date.toOrdinal (dt : Date) : Nat :=
  daysBeforeYear dt.year + daysBeforeMonth dt.year dt.month + dt.day

/-- Numeric value of a decimal digit character. -/
def digitVal (c : Char) : Nat := c.toNat - 48

/-- strptime %Y: exactly four decimal digits. -/
def read4Digits : List Char → Option (Nat × List Char)
  | a :: b :: c :: d :: rest =>
      if a.isDigit && b.isDigit && c.isDigit && d.isDigit then
        some (1000 * digitVal a + 100 * digitVal b + 10 * digitVal c + digitVal d, rest)
      else none
  | _ => none

/-- strptime %m / %d field: one or two digits in range 1..hi, two-digit
reading tried first, mirroring the regex alternation CPython compiles. -/
def fieldCandidates (hi : Nat) : List Char → List (Nat × List Char)
  | a :: b :: rest =>
      let two :=
        if a.isDigit && b.isDigit then
          let v := 10 * digitVal a + digitVal b
          if 1 ≤ v && v ≤ hi then [(v, rest)] else []
        else []
      let one :=
        if a.isDigit && 1 ≤ digitVal a && digitVal a ≤ 9 then
          [(digitVal a, b :: rest)]
        else []
      two ++ one
  | [a] =>
      if a.isDigit && 1 ≤ digitVal a && digitVal a ≤ 9 then [(digitVal a, [])] else []
  | [] => []

/-- Consume one expected separator character. -/
def expectChar (c : Char) : List Char → Option (List Char)
  | x :: rest => if x == c then some rest else none
  | [] => none

/-- strptime with format year-sep-month-sep-day followed by the
datetime.date constructor validity check. -/
def tryYMD (sep : Char) (cs : List Char) : Option Date :=
  match read4Digits cs with
  | none => none
  | some (y, r1) =>
    match expectChar sep r1 with
    | none => none
    | some r2 =>
      ((fieldCandidates 12 r2).flatMap (fun mc =>
        match expectChar sep mc.2 with
        | none => []
        | some r3 =>
          (fieldCandidates 31 r3).filterMap (fun dc =>
            if dc.2.isEmpty && validDate y mc.1 dc.1 then
              some (Date.mk y mc.1 dc.1)
            else none))).head?

/-- strptime with format day-sep-month-sep-year followed by the
datetime.date constructor validity check. -/
def tryDMY (sep : Char) (cs : List Char) : Option Date :=
  ((fieldCandidates 31 cs).flatMap (fun dc =>
    match expectChar sep dc.2 with
    | none => []
    | some r1 =>
      (fieldCandidates 12 r1).flatMap (fun mc =>
        match expectChar sep mc.2 with
        | none => []
        | some r2 =>
          match read4Digits r2 with
          | none => []
          | some (y, r3) =>
            if r3.isEmpty && validDate y mc.1 dc.1 then
              [Date.mk y mc.1 dc.1]
            else []))).head?

/-- parse_date of reconciliation.py: tries YYYY-MM-DD, then DD-MM-YYYY,
then DD/MM/YYYY, and falls back to today when the input is None or empty
or no format parses. Total, so it never raises. -/
def parse_date (today : Date) (date_str : Option String) : Date :=
  match date_str with
  | none => today
  | some s =>
    if s.isEmpty then today
    else
      match tryYMD '-' s.data with
      | some d => d
      | none =>
        match tryDMY '-' s.data with
        | some d => d
        | none =>
          match tryDMY '/' s.data with
          | some d => d
          | none => today

/-- calculate_days_outstanding of reconciliation.py: 0 for None or empty
input, otherwise max 0 of (today - parsed issue date) in days. -/
def calculate_days_outstanding (today : Date) (issue_date_str : Option String) : Nat :=
  match issue_date_str with
  | none => 0
  | some s =>
    if s.isEmpty then 0
    else
      let issue := parse_date today (some s)
      ((today.toOrdinal : Int) - (issue.toOrdinal : Int)).toNat

/-- Whitespace as stripped by Python str.strip: space, tab, newline,
carriage return, vertical tab, form feed. -/
def isStripSpace (c : Char) : Bool :=
  c == ' ' || (9 ≤ c.toNat && c.toNat ≤ 13)

/-- ASCII upper-casing of one character, as str.upper on ASCII data. -/
def upperChar (c : Char) : Char :=
  if 'a' ≤ c && c ≤ 'z' then Char.ofNat (c.toNat - 32) else c

/-- Python str.strip on a character list. -/
def stripChars (cs : List Char) : List Char :=
  ((cs.dropWhile isStripSpace).reverse.dropWhile isStripSpace).reverse

/-- Key normalization used on both ledgers:
cheque_number.strip().upper(). -/
def normalize_key (s : String) : String :=
  String.mk ((stripChars s.data).map upperChar)

/-- Company ledger row (SQLAlchemy CompanyExpense); every column is
nullable, hence the Option types. -/
structure CompanyExpense where
  cheque_number : Option String
  payee_name : Option String
  amount : Option ℚ
  issue_date : Option String
deriving DecidableEq, Repr

/-- Bank ledger row (SQLAlchemy BankTransaction). -/
structure BankTransaction where
  cheque_number : Option String
  amount : Option ℚ
  clearing_date : Option String
deriving DecidableEq, Repr

/-- Python exceptions the reconciliation path can raise. -/
inductive PyError where
  | attributeError (msg : String)
  | typeError (msg : String)
  | validationError (missing : List String)
deriving DecidableEq, Repr

/-- Message of the AttributeError raised by None.strip(). -/
def noneStripMsg : String := "NoneType object has no attribute strip"

/-- Message of the TypeError raised by subtraction involving None. -/
def noneSubMsg : String := "unsupported operand types for subtraction"

/-- Pydantic CashedCheque schema: every field is required (issue_date is
declared str, not Optional). -/
structure CashedCheque where
  company_cheque_number : String
  bank_cheque_number : String
  payee_name : String
  amount : ℚ
  issue_date : String
  clearing_date : String
deriving DecidableEq, Repr

/-- Pydantic UncashedCheque schema: every field is required (issue_date is
declared str, not Optional). -/
structure UncashedCheque where
  cheque_number : String
  payee_name : String
  amount : ℚ
  issue_date : String
  days_outstanding : Nat
deriving DecidableEq, Repr

/-- Python `x or None`: an empty string is falsy and becomes None. -/
def orNone (s : Option String) : Option String :=
  match s with
  | some str => if str.isEmpty then none else some str
  | none => none

/-- Pydantic validation of a CashedCheque construction: collects the
None-valued required fields in declaration order. -/
def mkCashedCheque (ccn : String) (bcn : Option String) (pn : Option String)
    (amt : ℚ) (isd cd : Option String) : Except PyError CashedCheque :=
  match bcn, pn, isd, cd with
  | some b, some p, some i, some c => .ok ⟨ccn, b, p, amt, i, c⟩
  | _, _, _, _ =>
      .error (.validationError
        ((if bcn.isNone then ["bank_cheque_number"] else []) ++
         (if pn.isNone then ["payee_name"] else []) ++
         (if isd.isNone then ["issue_date"] else []) ++
         (if cd.isNone then ["clearing_date"] else [])))

/-- Pydantic validation of an UncashedCheque construction. -/
def mkUncashedCheque (cn : String) (pn : Option String) (amt : Option ℚ)
    (isd : Option String) (days : Nat) : Except PyError UncashedCheque :=
  match pn, amt, isd with
  | some p, some a, some i => .ok ⟨cn, p, a, i, days⟩
  | _, _, _ =>
      .error (.validationError
        ((if pn.isNone then ["payee_name"] else []) ++
         (if amt.isNone then ["amount"] else []) ++
         (if isd.isNone then ["issue_date"] else [])))

/-- Python builtin abs on a (rational-modelled) float. -/
def pyAbs (q : ℚ) : ℚ := if q < 0 then -q else q

/-- Python dict insertion: overwrite in place on an existing key,
append otherwise. -/
def dictInsert (m : List (String × BankTransaction)) (k : String)
    (v : BankTransaction) : List (String × BankTransaction) :=
  if m.any (fun p => p.1 == k) then
    m.map (fun p => if p.1 == k then (k, v) else p)
  else m ++ [(k, v)]

/-- Python dict lookup by key. -/
def dictFind (m : List (String × BankTransaction)) (k : String) :
    Option BankTransaction :=
  (m.find? (fun p => p.1 == k)).map Prod.snd

/-- Set add on the insertion-ordered list model of a Python set. -/
def setAdd (l : List String) (k : String) : List String :=
  if l.contains k then l else l ++ [k]

/-- Set discard on the insertion-ordered list model of a Python set. -/
def setDiscard (l : List String) (k : String) : List String :=
  l.filter (fun x => x != k)

/-- The bank_cheques_by_number loop of reconcile_cheques: normalized key to
record, last write wins; None cheque_number raises AttributeError. -/
def buildBankMap (bts : List BankTransaction) :
    Except PyError (List (String × BankTransaction)) :=
  bts.foldlM (fun m bt =>
    match bt.cheque_number with
    | none => .error (.attributeError noneStripMsg)
    | some s => .ok (dictInsert m (normalize_key s) bt)) []

/-- Mutable state of the company-record loop of reconcile_cheques. -/
structure RecState where
  cashed : List CashedCheque
  uncashed : List UncashedCheque
  unmatched_bank : List String
  unmatched_company : List String
deriving DecidableEq, Repr

/-- One iteration of the company-record loop of reconcile_cheques. -/
def processCompany (today : Date) (bmap : List (String × BankTransaction))
    (st : RecState) (ce : CompanyExpense) : Except PyError RecState :=
  match ce.cheque_number with
  | none => .error (.attributeError noneStripMsg)
  | some csn =>
    match dictFind bmap (normalize_key csn) with
    | some bt =>
      match ce.amount, bt.amount with
      | some ca, some ba =>
        if pyAbs (ca - ba) < 1 / 100 then
          match mkCashedCheque csn bt.cheque_number ce.payee_name ca
              (orNone ce.issue_date) bt.clearing_date with
          | .ok cc =>
              .ok ⟨st.cashed ++ [cc], st.uncashed,
                setDiscard st.unmatched_bank (normalize_key csn), st.unmatched_company⟩
          | .error e => .error e
        else
          match mkUncashedCheque csn ce.payee_name (some ca)
              (orNone ce.issue_date)
              (calculate_days_outstanding today ce.issue_date) with
          | .ok uc =>
              .ok ⟨st.cashed, st.uncashed ++ [uc],
                st.unmatched_bank, setAdd st.unmatched_company (normalize_key csn)⟩
          | .error e => .error e
      | _, _ => .error (.typeError noneSubMsg)
    | none =>
      match mkUncashedCheque csn ce.payee_name ce.amount
          (orNone ce.issue_date)
          (calculate_days_outstanding today ce.issue_date) with
      | .ok uc =>
          .ok ⟨st.cashed, st.uncashed ++ [uc],
            st.unmatched_bank, setAdd st.unmatched_company (normalize_key csn)⟩
      | .error e => .error e

/-- The company-record for-loop of reconcile_cheques, stopping at the first
raised exception. -/
def processAll (today : Date) (bmap : List (String × BankTransaction)) :
    RecState → List CompanyExpense → Except PyError RecState
  | st, [] => .ok st
  | st, ce :: rest =>
    match processCompany today bmap st ce with
    | .error e => .error e
    | .ok st1 => processAll today bmap st1 rest

/-- The unmatched_info dictionary returned by reconcile_cheques. -/
structure UnmatchedInfo where
  unmatched_bank_cheques : List String
  unmatched_company_cheques : List String
  bank_cheques_without_company_record : Nat
  company_cheques_without_bank_clearance : Nat
deriving DecidableEq, Repr

/-- reconcile_cheques of reconciliation.py. -/
def reconcile_cheques (today : Date) (company_expenses : List CompanyExpense)
    (bank_transactions : List BankTransaction) :
    Except PyError (List CashedCheque × List UncashedCheque × UnmatchedInfo) :=
  match buildBankMap bank_transactions with
  | .error e => .error e
  | .ok bmap =>
    match processAll today bmap ⟨[], [], bmap.map Prod.fst, []⟩ company_expenses with
    | .error e => .error e
    | .ok stF =>
        .ok (stF.cashed, stF.uncashed,
          ⟨stF.unmatched_bank, stF.unmatched_company,
           stF.unmatched_bank.length, stF.unmatched_company.length⟩)

/-- calculate_totals of reconciliation.py: Python sum over the amount of
each list, starting from 0. -/
def calculate_totals (cashed_cheques : List CashedCheque)
    (uncashed_cheques : List UncashedCheque) : ℚ × ℚ :=
  (cashed_cheques.foldl (fun acc c => acc + c.amount) 0,
   uncashed_cheques.foldl (fun acc u => acc + u.amount) 0)

/-- Stored tally_results row (models/tally_results.py); the JSON text
columns hold the serialized lists, modelled structurally. -/
structure TallyResult where
  session_id : String
  cashed : List CashedCheque
  pending : List UncashedCheque
  unmatched : UnmatchedInfo
  total_cashed_amount : ℚ
  total_pending_amount : ℚ
  created_at : Nat
deriving DecidableEq, Repr

/-- In-place update of the first row matching the session, as mutating the
object returned by query(...).first(). -/
def updateFirst (db : List TallyResult) (sid : String)
    (row : TallyResult) : List TallyResult :=
  match db with
  | [] => []
  | r :: rest =>
    if r.session_id == sid then row :: rest
    else r :: updateFirst rest sid row

/-- store_tally_result of reconciliation.py: computes totals, then updates
the existing row for the session in place if one exists, otherwise inserts
a fresh row (created_at defaulted to the insertion time). Returns the
committed database and the stored row. -/
def store_tally_result (db : List TallyResult) (session_id : String)
    (cashed_cheques : List CashedCheque) (uncashed_cheques : List UncashedCheque)
    (unmatched_info : UnmatchedInfo) (now : Nat) :
    List TallyResult × TallyResult :=
  let t := calculate_totals cashed_cheques uncashed_cheques
  match db.find? (fun r => r.session_id == session_id) with
  | some ex =>
      let updated : TallyResult :=
        ⟨ex.session_id, cashed_cheques, uncashed_cheques, unmatched_info,
         t.1, t.2, ex.created_at⟩
      (updateFirst db session_id updated, updated)
  | none =>
      let fresh : TallyResult :=
        ⟨session_id, cashed_cheques, uncashed_cheques, unmatched_info,
         t.1, t.2, now⟩
      (db ++ [fresh], fresh)

/-- TallyReportResponse schema (schemas/cheque.py). -/
structure TallyReportResponse where
  session_id : String
  total_cashed_cheques : Nat
  total_uncashed_cheques : Nat
  total_cashed_amount : ℚ
  total_uncashed_amount : ℚ
  cashed_cheques : List CashedCheque
  uncashed_cheques : List UncashedCheque
  created_at : Nat
deriving DecidableEq, Repr

/-- generate_tally_report of reconciliation.py. -/
def generate_tally_report (session_id : String)
    (cashed_cheques : List CashedCheque)
    (uncashed_cheques : List UncashedCheque) (now : Nat) : TallyReportResponse :=
  let t := calculate_totals cashed_cheques uncashed_cheques
  ⟨session_id, cashed_cheques.length, uncashed_cheques.length,
   t.1, t.2, cashed_cheques, uncashed_cheques, now⟩

/-- HTTP-level errors surfaced by tally.py. -/
inductive HttpError where
  | notFound (detail : String)
  | badRequest (detail : String)
  | internalError (detail : String)
deriving DecidableEq, Repr

/-- Detail string of the empty-ledger rejection in tally.py. -/
def emptyLedgerMsg : String :=
  "Session must have both company expenses and bank transactions before running tally"

/-- Rendering of a raised Python exception into the detail string of the
500 response of tally.py. -/
def pyErrorText : PyError → String
  | .attributeError m => m
  | .typeError m => m
  | .validationError fs => String.intercalate ", " (fs.map (fun f => "validation error for " ++ f))

/-- run_tally_reconciliation of tally.py after the (external) session
ownership check: rejects when either ledger is empty, runs the matcher,
stores the result and builds the report; any raised exception rolls the
transaction back, leaving the database unchanged, and is surfaced as a 500
error. The database state is passed explicitly. -/
def run_tally_reconciliation (today : Date) (db : List TallyResult)
    (session_id : String) (company_expenses : List CompanyExpense)
    (bank_transactions : List BankTransaction) (now : Nat) :
    List TallyResult × Except HttpError TallyReportResponse :=
  if company_expenses.isEmpty || bank_transactions.isEmpty then
    (db, .error (.badRequest emptyLedgerMsg))
  else
    match reconcile_cheques today company_expenses bank_transactions with
    | .error e =>
        (db, .error (.internalError ("Failed to run tally: " ++ pyErrorText e)))
    | .ok (cashed, uncashed, info) =>
        let stored := store_tally_result db session_id cashed uncashed info now
        (stored.1, .ok (generate_tally_report session_id cashed uncashed now))

/-- Number of stored rows for a session. -/
def countRows (db : List TallyResult) (sid : String) : Nat :=
  (db.filter (fun r => r.session_id == sid)).length

/-- The embedded Python abs agrees with the mathematical absolute value. -/
theorem pyAbs_eq_abs (q : ℚ) : pyAbs q = |q| := by
  unfold pyAbs
  rcases lt_or_le q 0 with h | h
  · rw [if_pos h, abs_of_neg h]
  · rw [if_neg (not_lt.mpr h), abs_of_nonneg h]

/-- Left fold of addition over rationals computes the list sum. -/
theorem foldl_add_eq_sum (l : List ℚ) (a : ℚ) :
    l.foldl (fun acc x => acc + x) a = a + l.sum := by
  induction l generalizing a with
  | nil => simp
  | cons x xs ih => simp [List.foldl_cons, ih, List.sum_cons]; ring

/-- calculate_totals computes the two amount sums. -/
theorem calculate_totals_eq (cashed : List CashedCheque)
    (uncashed : List UncashedCheque) :
    calculate_totals cashed uncashed =
      ((cashed.map CashedCheque.amount).sum,
       (uncashed.map UncashedCheque.amount).sum) := by
  unfold calculate_totals
  rw [← List.foldl_map CashedCheque.amount (fun acc x => acc + x) cashed 0,
      ← List.foldl_map UncashedCheque.amount (fun acc x => acc + x) uncashed 0,
      foldl_add_eq_sum, foldl_add_eq_sum]
  simp

/-- A successful loop iteration classifies the company record into exactly
one of the two output lists. -/
theorem processCompany_adds_one (today : Date)
    (bmap : List (String × BankTransaction)) (st : RecState)
    (ce : CompanyExpense) (st1 : RecState)
    (h : processCompany today bmap st ce = .ok st1) :
    st1.cashed.length + st1.uncashed.length =
      st.cashed.length + st.uncashed.length + 1 := by
  unfold processCompany at h
  repeat' split at h
  all_goals cases h
  all_goals simp
  all_goals omega

/-- A successful run of the company loop grows the two output lists by the
number of processed records. -/
theorem processAll_length (today : Date)
    (bmap : List (String × BankTransaction)) :
    ∀ (ces : List CompanyExpense) (st stF : RecState),
      processAll today bmap st ces = .ok stF →
      stF.cashed.length + stF.uncashed.length =
        st.cashed.length + st.uncashed.length + ces.length := by
  intro ces
  induction ces with
  | nil =>
      intro st stF h
      unfold processAll at h
      cases h
      simp
  | cons ce rest ih =>
      intro st stF h
      unfold processAll at h
      split at h
      · cases h
      next st1 hst1 =>
        have h1 := processCompany_adds_one today bmap st ce st1 hst1
        have h2 := ih st1 stF h
        simp only [List.length_cons]
        omega

/-- C1. Partition: whenever reconcile_cheques returns, each company record
was classified into exactly one of the cashed and pending lists, so the
lengths of the two outputs add up to the length of the company input. -/
theorem reconcile_partition (today : Date) (ces : List CompanyExpense)
    (bts : List BankTransaction) (cashed : List CashedCheque)
    (uncashed : List UncashedCheque) (info : UnmatchedInfo)
    (h : reconcile_cheques today ces bts = .ok (cashed, uncashed, info)) :
    cashed.length + uncashed.length = ces.length := by
  unfold reconcile_cheques at h
  split at h
  · cases h
  next bmap _ =>
    split at h
    · cases h
    next stF hfold =>
      have hp := processAll_length today bmap ces ⟨[], [], bmap.map Prod.fst, []⟩ stF hfold
      injection h with h
      injection h with h1 h
      injection h with h2 h3
      subst h1
      subst h2
      simpa using hp

unseal Rat.add Rat.sub Rat.mul Rat.inv in
/-- Witness for C1 at a concrete two-record company ledger. -/
theorem reconcile_partition_witness :
    reconcile_cheques ⟨2024, 5, 1⟩
        [⟨some "CHQ1", some "Alice", some 100, some "2024-01-01"⟩,
         ⟨some "CHQ2", some "Bob", some 50, some "2024-01-10"⟩]
        [⟨some "chq1", some 100, some "2024-01-05"⟩] =
      .ok ([⟨"CHQ1", "chq1", "Alice", 100, "2024-01-01", "2024-01-05"⟩],
        [⟨"CHQ2", "Bob", 50, "2024-01-10", 112⟩],
        ⟨[], ["CHQ2"], 0, 1⟩) ∧
    (1 : Nat) + 1 = 2 :=
  ⟨by decide,
   reconcile_partition ⟨2024, 5, 1⟩
     [⟨some "CHQ1", some "Alice", some 100, some "2024-01-01"⟩,
      ⟨some "CHQ2", some "Bob", some 50, some "2024-01-10"⟩]
     [⟨some "chq1", some 100, some "2024-01-05"⟩]
     [⟨"CHQ1", "chq1", "Alice", 100, "2024-01-01", "2024-01-05"⟩]
     [⟨"CHQ2", "Bob", 50, "2024-01-10", 112⟩]
     ⟨[], ["CHQ2"], 0, 1⟩ (by decide)⟩

unseal Rat.add Rat.sub Rat.mul Rat.inv in
/-- C4. The code raises: a company record with all fields present except a
None issue_date makes reconcile_cheques raise a pydantic ValidationError on
the issue_date field (the schema declares issue_date as a required str),
instead of completing with a null issue_date. -/
theorem none_issue_date_raises :
    reconcile_cheques ⟨2024, 5, 1⟩
        [⟨some "C1", some "Alice", some 100, none⟩]
        [⟨some "C1", some 100, some "2024-01-05"⟩] =
      .error (.validationError ["issue_date"]) ∧
    reconcile_cheques ⟨2024, 5, 1⟩
        [⟨some "C2", some "Bob", some 100, none⟩]
        [⟨some "B9", some 100, some "2024-01-05"⟩] =
      .error (.validationError ["issue_date"]) := by
  constructor
  · decide
  · decide

/-- C6. parse_date returns today on None input and on unparsable input,
and parses the formats YYYY-MM-DD and DD-MM-YYYY as specified. -/
theorem parse_date_fallback_and_formats (today : Date) :
    parse_date today none = today ∧
    parse_date today (some "not-a-date") = today ∧
    parse_date today (some "2024-03-05") = ⟨2024, 3, 5⟩ ∧
    parse_date today (some "05-03-2024") = ⟨2024, 3, 5⟩ ∧
    parse_date today (some "05/03/2024") = ⟨2024, 3, 5⟩ ∧
    parse_date today (some "") = today :=
  ⟨rfl, rfl, rfl, rfl, rfl, rfl⟩

/-- C7. calculate_totals returns the amount sums of the two lists, an empty
list sums to 0, and store_tally_result stores exactly those sums as
total_cashed_amount and total_pending_amount. -/
theorem totals_are_sums (cashed : List CashedCheque)
    (uncashed : List UncashedCheque) (db : List TallyResult) (sid : String)
    (info : UnmatchedInfo) (now : Nat) :
    calculate_totals cashed uncashed =
      ((cashed.map CashedCheque.amount).sum,
       (uncashed.map UncashedCheque.amount).sum) ∧
    calculate_totals [] [] = (0, 0) ∧
    (store_tally_result db sid cashed uncashed info now).2.total_cashed_amount =
      (cashed.map CashedCheque.amount).sum ∧
    (store_tally_result db sid cashed uncashed info now).2.total_pending_amount =
      (uncashed.map UncashedCheque.amount).sum := by
  refine ⟨calculate_totals_eq cashed uncashed, by simp [calculate_totals], ?_, ?_⟩
  all_goals
    unfold store_tally_result
    split
  all_goals
    simp [calculate_totals_eq]

/-- C9. Empty-ledger precondition: when either ledger is empty the run is
rejected with the 400 error before any matching, and the stored state is
returned unchanged. -/
theorem empty_ledger_rejected (today : Date) (db : List TallyResult)
    (sid : String) (ces : List CompanyExpense) (bts : List BankTransaction)
    (now : Nat) (h : ces = [] ∨ bts = []) :
    run_tally_reconciliation today db sid ces bts now =
      (db, .error (.badRequest emptyLedgerMsg)) := by
  unfold run_tally_reconciliation
  rcases h with h | h <;> subst h <;> simp

/-- A successful dict lookup means the key is among the dict keys. -/
theorem dictFind_mem_keys (m : List (String × BankTransaction)) (k : String)
    (bt : BankTransaction) (h : dictFind m k = some bt) :
    k ∈ m.map Prod.fst := by
  unfold dictFind at h
  cases hf : m.find? (fun p => p.1 == k) with
  | none => rw [hf] at h; cases h
  | some p =>
      have hp : p.1 = k := by simpa using List.find?_some hf
      have hm : p ∈ m := List.mem_of_find?_eq_some hf
      rw [← hp]
      exact List.mem_map_of_mem Prod.fst hm

/-- Step lemma: a matched company record within tolerance appends one
cashed entry and discards the bank key from the unmatched-bank set. -/
theorem processCompany_matched (today : Date)
    (bmap : List (String × BankTransaction)) (st : RecState)
    (ce : CompanyExpense) (csn : String) (bt : BankTransaction)
    (ca ba : ℚ) (b p i c : String)
    (hcn : ce.cheque_number = some csn)
    (hfind : dictFind bmap (normalize_key csn) = some bt)
    (hca : ce.amount = some ca) (hba : bt.amount = some ba)
    (hlt : pyAbs (ca - ba) < 1 / 100)
    (hbn : bt.cheque_number = some b) (hp : ce.payee_name = some p)
    (hi : orNone ce.issue_date = some i) (hcd : bt.clearing_date = some c) :
    processCompany today bmap st ce =
      .ok ⟨st.cashed ++ [⟨csn, b, p, ca, i, c⟩], st.uncashed,
        setDiscard st.unmatched_bank (normalize_key csn),
        st.unmatched_company⟩ := by
  unfold processCompany
  simp only [hcn, hfind, hca, hba, if_pos hlt, mkCashedCheque, hbn, hp, hi, hcd]

/-- Step lemma: a matched company record out of tolerance appends one
pending entry, adds the key to the unmatched-company set, and leaves the
unmatched-bank set unchanged. -/
theorem processCompany_mismatch (today : Date)
    (bmap : List (String × BankTransaction)) (st : RecState)
    (ce : CompanyExpense) (csn : String) (bt : BankTransaction)
    (ca ba : ℚ) (p i : String)
    (hcn : ce.cheque_number = some csn)
    (hfind : dictFind bmap (normalize_key csn) = some bt)
    (hca : ce.amount = some ca) (hba : bt.amount = some ba)
    (hnlt : ¬ pyAbs (ca - ba) < 1 / 100)
    (hp : ce.payee_name = some p) (hi : orNone ce.issue_date = some i) :
    processCompany today bmap st ce =
      .ok ⟨st.cashed,
        st.uncashed ++
          [⟨csn, p, ca, i, calculate_days_outstanding today ce.issue_date⟩],
        st.unmatched_bank,
        setAdd st.unmatched_company (normalize_key csn)⟩ := by
  unfold processCompany
  simp only [hcn, hfind, hca, hba, if_neg hnlt, mkUncashedCheque, hp, hi]

/-- C2. A company record whose normalized key is in the bank map but whose
amount differs by at least 0.01 is classified Pending, its key is added to
the unmatched-company set, and the bank key is not removed from the
unmatched-bank set, so it is still counted in the returned summary. -/
theorem amount_mismatch_pending (today : Date) (ce : CompanyExpense)
    (bts : List BankTransaction) (bmap : List (String × BankTransaction))
    (csn p i : String) (bt : BankTransaction) (ca ba : ℚ)
    (hmap : buildBankMap bts = .ok bmap)
    (hcn : ce.cheque_number = some csn)
    (hfind : dictFind bmap (normalize_key csn) = some bt)
    (hca : ce.amount = some ca) (hba : bt.amount = some ba)
    (hmm : 1 / 100 ≤ |ca - ba|)
    (hp : ce.payee_name = some p) (hi : orNone ce.issue_date = some i) :
    reconcile_cheques today [ce] bts =
      .ok ([], [⟨csn, p, ca, i, calculate_days_outstanding today ce.issue_date⟩],
        ⟨bmap.map Prod.fst, [normalize_key csn],
         (bmap.map Prod.fst).length, 1⟩) ∧
    normalize_key csn ∈ bmap.map Prod.fst := by
  have hnlt : ¬ pyAbs (ca - ba) < 1 / 100 := by
    rw [pyAbs_eq_abs]
    exact not_lt.mpr hmm
  have hpc := processCompany_mismatch today bmap
    ⟨[], [], bmap.map Prod.fst, []⟩ ce csn bt ca ba p i
    hcn hfind hca hba hnlt hp hi
  refine ⟨?_, dictFind_mem_keys bmap (normalize_key csn) bt hfind⟩
  unfold reconcile_cheques
  simp only [hmap]
  simp only [processAll, hpc]
  simp [setAdd]

unseal Rat.add Rat.sub Rat.mul Rat.inv in
/-- Witness for C2: amounts 10 and 5 under the same normalized key. -/
theorem amount_mismatch_pending_witness :
    reconcile_cheques ⟨2024, 1, 10⟩
        [⟨some "M1", some "Pat", some 10, some "2024-01-10"⟩]
        [⟨some "m1", some 5, some "2024-01-11"⟩] =
      .ok ([], [⟨"M1", "Pat", 10, "2024-01-10", 0⟩], ⟨["M1"], ["M1"], 1, 1⟩) ∧
    "M1" ∈ ["M1"] :=
  amount_mismatch_pending ⟨2024, 1, 10⟩
    ⟨some "M1", some "Pat", some 10, some "2024-01-10"⟩
    [⟨some "m1", some 5, some "2024-01-11"⟩]
    [("M1", ⟨some "m1", some 5, some "2024-01-11"⟩)]
    "M1" "Pat" "2024-01-10" ⟨some "m1", some 5, some "2024-01-11"⟩ 10 5
    (by decide) (by decide) (by decide) (by decide) (by decide)
    (by rw [← pyAbs_eq_abs]; decide) (by decide) (by decide)

/-- C3. Amount tolerance boundary on a same-key company/bank pair: an
absolute difference of exactly 0.009999 is classified Cashed, an absolute
difference of exactly 0.01 is classified Pending; the matching predicate is
the strict comparison abs(difference) less than 0.01. -/
theorem amount_tolerance_boundary (today : Date) (ce : CompanyExpense)
    (bt : BankTransaction) (csn bsn p i cd : String) (ca ba : ℚ)
    (hcn : ce.cheque_number = some csn)
    (hbn : bt.cheque_number = some bsn)
    (hkey : normalize_key csn = normalize_key bsn)
    (hca : ce.amount = some ca) (hba : bt.amount = some ba)
    (hp : ce.payee_name = some p) (hi : orNone ce.issue_date = some i)
    (hcd : bt.clearing_date = some cd) :
    (|ca - ba| = 9999 / 1000000 →
      reconcile_cheques today [ce] [bt] =
        .ok ([⟨csn, bsn, p, ca, i, cd⟩], [], ⟨[], [], 0, 0⟩)) ∧
    (|ca - ba| = 1 / 100 →
      reconcile_cheques today [ce] [bt] =
        .ok ([], [⟨csn, p, ca, i, calculate_days_outstanding today ce.issue_date⟩],
          ⟨[normalize_key bsn], [normalize_key csn], 1, 1⟩)) := by
  have hbm : buildBankMap [bt] = .ok [(normalize_key bsn, bt)] := by
    unfold buildBankMap
    simp [hbn, dictInsert, List.foldlM]
  have hfind : dictFind [(normalize_key bsn, bt)] (normalize_key csn) = some bt := by
    unfold dictFind
    simp [List.find?, hkey]
  constructor
  · intro hd
    have hlt : pyAbs (ca - ba) < 1 / 100 := by
      rw [pyAbs_eq_abs, hd]
      norm_num
    have hpc := processCompany_matched today [(normalize_key bsn, bt)]
      ⟨[], [], [(normalize_key bsn, bt)].map Prod.fst, []⟩ ce csn bt ca ba bsn p i cd
      hcn hfind hca hba hlt hbn hp hi hcd
    unfold reconcile_cheques
    simp only [hbm]
    simp only [processAll, hpc]
    simp [setDiscard, hkey]
  · intro hd
    have hnlt : ¬ pyAbs (ca - ba) < 1 / 100 := by
      rw [pyAbs_eq_abs, hd]
      norm_num
    have hpc := processCompany_mismatch today [(normalize_key bsn, bt)]
      ⟨[], [], [(normalize_key bsn, bt)].map Prod.fst, []⟩ ce csn bt ca ba p i
      hcn hfind hca hba hnlt hp hi
    unfold reconcile_cheques
    simp only [hbm]
    simp only [processAll, hpc]
    simp [setAdd]

unseal Rat.add Rat.sub Rat.mul Rat.inv in
/-- Witness for C3: amounts 100.009999 vs 100 (Cashed) and 100.01 vs 100
(Pending) on the same normalized key. -/
theorem amount_tolerance_boundary_witness :
    reconcile_cheques ⟨2024, 1, 10⟩
        [⟨some "T1", some "P", some (100 + 9999 / 1000000), some "2024-01-10"⟩]
        [⟨some "t1", some 100, some "2024-01-12"⟩] =
      .ok ([⟨"T1", "t1", "P", 100 + 9999 / 1000000, "2024-01-10", "2024-01-12"⟩],
        [], ⟨[], [], 0, 0⟩) ∧
    reconcile_cheques ⟨2024, 1, 10⟩
        [⟨some "T1", some "P", some (100 + 1 / 100), some "2024-01-10"⟩]
        [⟨some "t1", some 100, some "2024-01-12"⟩] =
      .ok ([], [⟨"T1", "P", 100 + 1 / 100, "2024-01-10", 0⟩],
        ⟨["T1"], ["T1"], 1, 1⟩) :=
  ⟨(amount_tolerance_boundary ⟨2024, 1, 10⟩
      ⟨some "T1", some "P", some (100 + 9999 / 1000000), some "2024-01-10"⟩
      ⟨some "t1", some 100, some "2024-01-12"⟩
      "T1" "t1" "P" "2024-01-10" "2024-01-12" (100 + 9999 / 1000000) 100
      (by decide) (by decide) (by decide) (by decide) (by decide) (by decide)
      (by decide) (by decide)).1
    (by rw [← pyAbs_eq_abs]; decide),
   (amount_tolerance_boundary ⟨2024, 1, 10⟩
      ⟨some "T1", some "P", some (100 + 1 / 100), some "2024-01-10"⟩
      ⟨some "t1", some 100, some "2024-01-12"⟩
      "T1" "t1" "P" "2024-01-10" "2024-01-12" (100 + 1 / 100) 100
      (by decide) (by decide) (by decide) (by decide) (by decide) (by decide)
      (by decide) (by decide)).2
    (by rw [← pyAbs_eq_abs]; decide)⟩

/-- C10. A bank record is not consumed by a match: two company records with
the same normalized key, each within tolerance of the single bank record
under that key, are both classified Cashed against it, so the cashed list
holds two entries backed by one bank row, the cashed total is twice the
company amount, and the bank key is only removed from the unmatched-bank
set (the lookup map is never shrunk). -/
theorem bank_record_not_consumed (today : Date) (ce : CompanyExpense)
    (bt : BankTransaction) (csn bsn p i cd : String) (ca ba : ℚ)
    (hcn : ce.cheque_number = some csn)
    (hbn : bt.cheque_number = some bsn)
    (hkey : normalize_key csn = normalize_key bsn)
    (hca : ce.amount = some ca) (hba : bt.amount = some ba)
    (htol : |ca - ba| < 1 / 100)
    (hp : ce.payee_name = some p) (hi : orNone ce.issue_date = some i)
    (hcd : bt.clearing_date = some cd) :
    reconcile_cheques today [ce, ce] [bt] =
      .ok ([⟨csn, bsn, p, ca, i, cd⟩, ⟨csn, bsn, p, ca, i, cd⟩], [],
        ⟨[], [], 0, 0⟩) ∧
    (calculate_totals [⟨csn, bsn, p, ca, i, cd⟩, ⟨csn, bsn, p, ca, i, cd⟩] []).1 =
      ca + ca := by
  have hbm : buildBankMap [bt] = .ok [(normalize_key bsn, bt)] := by
    unfold buildBankMap
    simp [hbn, dictInsert, List.foldlM]
  have hfind : dictFind [(normalize_key bsn, bt)] (normalize_key csn) = some bt := by
    unfold dictFind
    simp [List.find?, hkey]
  have hlt : pyAbs (ca - ba) < 1 / 100 := by
    rw [pyAbs_eq_abs]
    exact htol
  have hpc1 := processCompany_matched today [(normalize_key bsn, bt)]
    ⟨[], [], [(normalize_key bsn, bt)].map Prod.fst, []⟩ ce csn bt ca ba bsn p i cd
    hcn hfind hca hba hlt hbn hp hi hcd
  have hpc2 := processCompany_matched today [(normalize_key bsn, bt)]
    ⟨[⟨csn, bsn, p, ca, i, cd⟩], [],
      setDiscard ([(normalize_key bsn, bt)].map Prod.fst) (normalize_key csn), []⟩
    ce csn bt ca ba bsn p i cd hcn hfind hca hba hlt hbn hp hi hcd
  constructor
  · unfold reconcile_cheques
    simp only [hbm]
    simp only [processAll, hpc1]
    simp only [List.nil_append]
    simp only [hpc2]
    simp [setDiscard, hkey]
  · simp [calculate_totals]

unseal Rat.add Rat.sub Rat.mul Rat.inv in
/-- Witness for C10: the same company record twice against one bank row. -/
theorem bank_record_not_consumed_witness :
    reconcile_cheques ⟨2024, 1, 10⟩
        [⟨some "D1", some "P", some 100, some "2024-01-10"⟩,
         ⟨some "D1", some "P", some 100, some "2024-01-10"⟩]
        [⟨some "d1", some 100, some "2024-01-12"⟩] =
      .ok ([⟨"D1", "d1", "P", 100, "2024-01-10", "2024-01-12"⟩,
        ⟨"D1", "d1", "P", 100, "2024-01-10", "2024-01-12"⟩], [],
        ⟨[], [], 0, 0⟩) ∧
    (calculate_totals [⟨"D1", "d1", "P", 100, "2024-01-10", "2024-01-12"⟩,
        ⟨"D1", "d1", "P", 100, "2024-01-10", "2024-01-12"⟩] []).1 = 100 + 100 :=
  bank_record_not_consumed ⟨2024, 1, 10⟩
    ⟨some "D1", some "P", some 100, some "2024-01-10"⟩
    ⟨some "d1", some 100, some "2024-01-12"⟩
    "D1" "d1" "P" "2024-01-10" "2024-01-12" 100 100
    (by decide) (by decide) (by decide) (by decide) (by decide)
    (by rw [← pyAbs_eq_abs]; decide) (by decide) (by decide) (by decide)

/-- The company loop raises whenever some record has a None cheque_number:
either an earlier record raises first, or the offending record raises the
AttributeError from None.strip(). -/
theorem processAll_error_of_missing (today : Date)
    (bmap : List (String × BankTransaction)) :
    ∀ (ces : List CompanyExpense) (st : RecState),
      (∃ ce ∈ ces, ce.cheque_number = none) →
      ∃ e, processAll today bmap st ces = .error e := by
  intro ces
  induction ces with
  | nil =>
      intro st h
      rcases h with ⟨ce, hmem, _⟩
      cases hmem
  | cons c rest ih =>
      intro st h
      rcases h with ⟨ce, hmem, hnone⟩
      rcases List.mem_cons.mp hmem with rfl | hmem2
      · exact ⟨.attributeError noneStripMsg,
          by simp only [processAll, processCompany, hnone]⟩
      · cases hpc : processCompany today bmap st c with
        | error e => exact ⟨e, by simp only [processAll, hpc]⟩
        | ok st1 =>
            obtain ⟨e, he⟩ := ih st1 ⟨ce, hmem2, hnone⟩
            exact ⟨e, by simp only [processAll, hpc]; exact he⟩

/-- C5 (amended). A company record with a missing (None) cheque_number makes
the whole run fail: reconcile_cheques raises, run_tally_reconciliation
rolls the transaction back (database returned unchanged) and surfaces a 500
internal error; no partial result is persisted. The error does not name the
offending record index. -/
theorem missing_cheque_number_fails_fast (today : Date) (db : List TallyResult)
    (sid : String) (ces : List CompanyExpense) (bts : List BankTransaction)
    (now : Nat)
    (hbad : ∃ ce ∈ ces, ce.cheque_number = none)
    (hbts : bts ≠ []) :
    ∃ msg, run_tally_reconciliation today db sid ces bts now =
      (db, .error (.internalError msg)) := by
  have hne : ces ≠ [] := by
    rcases hbad with ⟨ce, hmem, _⟩
    intro h
    subst h
    cases hmem
  have hc : ¬ (ces.isEmpty || bts.isEmpty) = true := by
    intro hcontra
    simp only [Bool.or_eq_true, List.isEmpty_iff] at hcontra
    rcases hcontra with h | h
    · exact hne h
    · exact hbts h
  have hrec : ∃ e, reconcile_cheques today ces bts = .error e := by
    unfold reconcile_cheques
    cases hbm : buildBankMap bts with
    | error e => exact ⟨e, rfl⟩
    | ok bmap =>
        obtain ⟨e, he⟩ :=
          processAll_error_of_missing today bmap ces
            ⟨[], [], bmap.map Prod.fst, []⟩ hbad
        exact ⟨e, by simp only [he]⟩
  obtain ⟨e, he⟩ := hrec
  refine ⟨"Failed to run tally: " ++ pyErrorText e, ?_⟩
  unfold run_tally_reconciliation
  rw [if_neg hc]
  simp only [he]

unseal Rat.add Rat.sub Rat.mul Rat.inv in
/-- Witness for the amended C5 at a one-record ledger missing its
cheque_number. -/
theorem missing_cheque_number_fails_fast_witness :
    ∃ msg, run_tally_reconciliation ⟨2024, 5, 1⟩ [] "s1"
        [⟨none, some "A", some 10, some "2024-01-01"⟩]
        [⟨some "B1", some 5, some "2024-01-02"⟩] 0 =
      ([], .error (.internalError msg)) :=
  missing_cheque_number_fails_fast ⟨2024, 5, 1⟩ [] "s1"
    [⟨none, some "A", some 10, some "2024-01-01"⟩]
    [⟨some "B1", some 5, some "2024-01-02"⟩] 0
    ⟨⟨none, some "A", some 10, some "2024-01-01"⟩, by decide, rfl⟩
    (by decide)

unseal Rat.add Rat.sub Rat.mul Rat.inv in
/-- C5 (counterexample). The surfaced error for a record with a missing
required field is the same index-free message whether the offending record
sits at index 0 or at index 1 of the company ledger, so the error cannot
name the offending record index, and it is a generic AttributeError turned
into a 500 response, not a validation error. -/
theorem missing_field_error_lacks_index :
    (run_tally_reconciliation ⟨2024, 5, 1⟩ [] "s1"
        [⟨none, some "A", some 10, some "2024-01-01"⟩]
        [⟨some "B1", some 5, some "2024-01-02"⟩] 0).2 =
      .error (.internalError ("Failed to run tally: " ++ noneStripMsg)) ∧
    (run_tally_reconciliation ⟨2024, 5, 1⟩ [] "s1"
        [⟨some "B1", some "Z", some 5, some "2024-01-01"⟩,
         ⟨none, some "A", some 10, some "2024-01-01"⟩]
        [⟨some "B1", some 5, some "2024-01-02"⟩] 0).2 =
      .error (.internalError ("Failed to run tally: " ++ noneStripMsg)) := by
  constructor
  · decide
  · decide

/-- Updating the first matching row preserves the database length. -/
theorem updateFirst_length (db : List TallyResult) (sid : String)
    (row : TallyResult) : (updateFirst db sid row).length = db.length := by
  induction db with
  | nil => rfl
  | cons r rest ih =>
      unfold updateFirst
      split <;> simp [ih]

/-- Updating the first matching row with a row for the same session
preserves the per-session row count. -/
theorem countRows_updateFirst (db : List TallyResult) (sid : String)
    (row : TallyResult) (hrow : (row.session_id == sid) = true) :
    countRows (updateFirst db sid row) sid = countRows db sid := by
  induction db with
  | nil => rfl
  | cons r rest ih =>
      unfold updateFirst
      split
      next hr => simp [countRows, List.filter_cons, hrow, hr]
      next hr => simp only [countRows, List.filter_cons, hr, if_neg hr]; exact ih

/-- A failed first-row lookup means no row for the session is stored. -/
theorem countRows_of_find_none (db : List TallyResult) (sid : String)
    (h : db.find? (fun r => r.session_id == sid) = none) :
    countRows db sid = 0 := by
  unfold countRows
  rw [List.length_eq_zero]
  rw [List.filter_eq_nil_iff]
  intro a ha
  exact (List.find?_eq_none.mp h) a ha

/-- A successful first-row lookup means at least one row is stored. -/
theorem countRows_of_find_some (db : List TallyResult) (sid : String)
    (ex : TallyResult)
    (h : db.find? (fun r => r.session_id == sid) = some ex) :
    0 < countRows db sid := by
  unfold countRows
  have hmem : ex ∈ db.filter (fun r => r.session_id == sid) :=
    List.mem_filter.mpr
      ⟨List.mem_of_find?_eq_some h, by simpa using List.find?_some h⟩
  exact List.length_pos.mpr (List.ne_nil_of_mem hmem)

/-- Storing into a database holding at most one row for the session leaves
exactly one row for it. -/
theorem countRows_store (db : List TallyResult) (sid : String)
    (c : List CashedCheque) (u : List UncashedCheque) (i : UnmatchedInfo)
    (now : Nat) (h : countRows db sid ≤ 1) :
    countRows (store_tally_result db sid c u i now).1 sid = 1 := by
  unfold store_tally_result
  cases hf : db.find? (fun r => r.session_id == sid) with
  | none =>
      have h0 := countRows_of_find_none db sid hf
      simp only [countRows, List.filter_append] at h0 ⊢
      simp [h0, List.length_eq_zero.mp h0]
  | some ex =>
      have h1 := countRows_of_find_some db sid ex hf
      have hp : (ex.session_id == sid) = true := by
        simpa using List.find?_some hf
      simp only []
      rw [countRows_updateFirst db sid
        ⟨ex.session_id, c, u, i, (calculate_totals c u).1,
         (calculate_totals c u).2, ex.created_at⟩ hp]
      omega

/-- When a row for the session already exists, storing updates in place and
the database length is unchanged. -/
theorem store_length_of_found (db : List TallyResult) (sid : String)
    (c : List CashedCheque) (u : List UncashedCheque) (i : UnmatchedInfo)
    (now : Nat) (h : 0 < countRows db sid) :
    (store_tally_result db sid c u i now).1.length = db.length := by
  unfold store_tally_result
  cases hf : db.find? (fun r => r.session_id == sid) with
  | none =>
      have h0 := countRows_of_find_none db sid hf
      omega
  | some ex => simp [updateFirst_length]

/-- The row returned by store_tally_result always carries the lists and the
totals it was asked to store. -/
theorem store_row_fields (db : List TallyResult) (sid : String)
    (c : List CashedCheque) (u : List UncashedCheque) (i : UnmatchedInfo)
    (now : Nat) :
    (store_tally_result db sid c u i now).2.cashed = c ∧
    (store_tally_result db sid c u i now).2.pending = u ∧
    (store_tally_result db sid c u i now).2.total_cashed_amount =
      (calculate_totals c u).1 ∧
    (store_tally_result db sid c u i now).2.total_pending_amount =
      (calculate_totals c u).2 := by
  unfold store_tally_result
  split <;> simp

/-- C8. Upsert idempotence: reconciling the same inputs twice and storing
both results for one session leaves the second stored row identical to the
first in cashed, pending and both totals, keeps exactly one stored row for
the session, and the second store updates in place without growing the
database. -/
theorem upsert_idempotent (today : Date) (db : List TallyResult)
    (sid : String) (ces : List CompanyExpense) (bts : List BankTransaction)
    (cashed : List CashedCheque) (uncashed : List UncashedCheque)
    (info : UnmatchedInfo) (t1 t2 : Nat)
    (hrec : reconcile_cheques today ces bts = .ok (cashed, uncashed, info))
    (hcount : countRows db sid ≤ 1) :
    (store_tally_result (store_tally_result db sid cashed uncashed info t1).1
        sid cashed uncashed info t2).2.cashed =
      (store_tally_result db sid cashed uncashed info t1).2.cashed ∧
    (store_tally_result (store_tally_result db sid cashed uncashed info t1).1
        sid cashed uncashed info t2).2.pending =
      (store_tally_result db sid cashed uncashed info t1).2.pending ∧
    (store_tally_result (store_tally_result db sid cashed uncashed info t1).1
        sid cashed uncashed info t2).2.total_cashed_amount =
      (store_tally_result db sid cashed uncashed info t1).2.total_cashed_amount ∧
    (store_tally_result (store_tally_result db sid cashed uncashed info t1).1
        sid cashed uncashed info t2).2.total_pending_amount =
      (store_tally_result db sid cashed uncashed info t1).2.total_pending_amount ∧
    countRows (store_tally_result (store_tally_result db sid cashed uncashed info t1).1
        sid cashed uncashed info t2).1 sid = 1 ∧
    (store_tally_result (store_tally_result db sid cashed uncashed info t1).1
        sid cashed uncashed info t2).1.length =
      (store_tally_result db sid cashed uncashed info t1).1.length := by
  have h1 : countRows (store_tally_result db sid cashed uncashed info t1).1 sid = 1 :=
    countRows_store db sid cashed uncashed info t1 hcount
  obtain ⟨ha1, hb1, hc1, hd1⟩ := store_row_fields db sid cashed uncashed info t1
  obtain ⟨ha2, hb2, hc2, hd2⟩ :=
    store_row_fields (store_tally_result db sid cashed uncashed info t1).1
      sid cashed uncashed info t2
  refine ⟨by rw [ha1, ha2], by rw [hb1, hb2], by rw [hc1, hc2], by rw [hd1, hd2],
    countRows_store _ sid cashed uncashed info t2 (le_of_eq h1), ?_⟩
  exact store_length_of_found _ sid cashed uncashed info t2 (by omega)

unseal Rat.add Rat.sub Rat.mul Rat.inv in
/-- Witness for C8: two stores of the same reconciliation result for one
session starting from an empty database. -/
theorem upsert_idempotent_witness :
    (store_tally_result (store_tally_result [] "s1"
        [⟨"CHQ1", "chq1", "Alice", 100, "2024-01-01", "2024-01-05"⟩]
        [⟨"CHQ2", "Bob", 50, "2024-01-10", 112⟩]
        ⟨[], ["CHQ2"], 0, 1⟩ 3).1 "s1"
        [⟨"CHQ1", "chq1", "Alice", 100, "2024-01-01", "2024-01-05"⟩]
        [⟨"CHQ2", "Bob", 50, "2024-01-10", 112⟩]
        ⟨[], ["CHQ2"], 0, 1⟩ 9).2.cashed =
      (store_tally_result [] "s1"
        [⟨"CHQ1", "chq1", "Alice", 100, "2024-01-01", "2024-01-05"⟩]
        [⟨"CHQ2", "Bob", 50, "2024-01-10", 112⟩]
        ⟨[], ["CHQ2"], 0, 1⟩ 3).2.cashed ∧
    countRows (store_tally_result (store_tally_result [] "s1"
        [⟨"CHQ1", "chq1", "Alice", 100, "2024-01-01", "2024-01-05"⟩]
        [⟨"CHQ2", "Bob", 50, "2024-01-10", 112⟩]
        ⟨[], ["CHQ2"], 0, 1⟩ 3).1 "s1"
        [⟨"CHQ1", "chq1", "Alice", 100, "2024-01-01", "2024-01-05"⟩]
        [⟨"CHQ2", "Bob", 50, "2024-01-10", 112⟩]
        ⟨[], ["CHQ2"], 0, 1⟩ 9).1 "s1" = 1 :=
  have h := upsert_idempotent ⟨2024, 5, 1⟩ [] "s1"
    [⟨some "CHQ1", some "Alice", some 100, some "2024-01-01"⟩,
     ⟨some "CHQ2", some "Bob", some 50, some "2024-01-10"⟩]
    [⟨some "chq1", some 100, some "2024-01-05"⟩]
    [⟨"CHQ1", "chq1", "Alice", 100, "2024-01-01", "2024-01-05"⟩]
    [⟨"CHQ2", "Bob", 50, "2024-01-10", 112⟩]
    ⟨[], ["CHQ2"], 0, 1⟩ 3 9 (by decide) (by decide)
  ⟨h.1, h.2.2.2.2.1⟩

/-- Witness for C9 with an empty company ledger. -/
theorem empty_ledger_rejected_witness :
    run_tally_reconciliation ⟨2024, 5, 1⟩ [] "s1" []
        [⟨some "B1", some 5, some "2024-01-02"⟩] 7 =
      ([], .error (.badRequest emptyLedgerMsg)) :=
  empty_ledger_rejected ⟨2024, 5, 1⟩ [] "s1" []
    [⟨some "B1", some 5, some "2024-01-02"⟩] 7 (Or.inl rfl)

end CheckTally
